import Mathlib

/-!
Shallow embedding of the intrusion-detection core of the repository:
`src/cms/ids_manager.py` (class `IDSManager`), `src/models/preprocess.py`,
`src/models/db_preprocess.py`, and the IDS endpoints of `src/enhanced_api.py`.

Conventions of the embedding:
* Python strings are Lean `String`s, handled through their `List Char` data;
  `str.lower`/`str.upper`/`str.strip` are idealized to their ASCII behaviour.
* Python floats are idealized as rationals (`ℚ`); `round(x, 4)` is modelled as
  round-half-to-even on `x * 10000`.
* The per-domain classifier artifact (`joblib` model) is opaque in the source;
  it is modelled as a record of its three probed capabilities: `predict`
  (always called), and the optional `decision_function` / `predict_proba`
  (whose absence raises in Python and is caught by the fallback chain).
* Stateful methods of `IDSManager` become functions `IDSState → ... → result × IDSState`.
* `datetime.now()` is threaded as an explicit `now : String` argument.
-/

namespace IDS

/-- Python's whitespace set for `\s`, `str.split()` and `str.strip()`
(ASCII idealization). -/
def isPySpace (c : Char) : Bool :=
  c = ' ' || c = '\t' || c = '\n' || c = '\r' || c = '\x0b' || c = '\x0c'

/-- `s.strip()`: drop leading and trailing whitespace. -/
def pyStrip (cs : List Char) : List Char :=
  ((cs.dropWhile isPySpace).reverse.dropWhile isPySpace).reverse

/-- ASCII `str.lower()`. -/
def lowerStr (s : String) : String := String.mk (s.data.map Char.toLower)

/-- ASCII `str.upper()`. -/
def upperStr (s : String) : String := String.mk (s.data.map Char.toUpper)

/-- Python's substring test `p in s` on lists of characters. -/
def infixOfB (p s : List Char) : Bool :=
  s.tails.any (fun t => p.isPrefixOf t)

/-- Python's substring test `p in s` for strings. -/
def subStr (p s : String) : Bool := infixOfB p.data s.data

/-- `any(pattern in s for pattern in pats)`. -/
def anySub (pats : List String) (s : String) : Bool :=
  pats.any (fun p => subStr p s)

/-- Python's non-overlapping `s.count(p)` for a nonempty pattern. -/
def countOccur (p : List Char) : List Char → Nat
  | [] => 0
  | c :: rest =>
    if p.isPrefixOf (c :: rest) then 1 + countOccur p (rest.drop (p.length - 1))
    else countOccur p rest
termination_by s => s.length
decreasing_by
  · simp only [List.length_cons]
    have := List.length_drop (p.length - 1) rest
    omega
  · simp [List.length_cons]

/-- `str.split()` (split on whitespace runs, no empty parts): accumulator form. -/
def splitWsAux : List Char → List Char → List (List Char)
  | [], acc => if acc.isEmpty then [] else [acc.reverse]
  | c :: cs, acc =>
    if isPySpace c then
      if acc.isEmpty then splitWsAux cs [] else acc.reverse :: splitWsAux cs []
    else splitWsAux cs (c :: acc)

/-- Python `request.split()`. -/
def pySplitWs (cs : List Char) : List (List Char) := splitWsAux cs []

/-- Value of a `\d+` capture. -/
def digitsToNat (cs : List Char) : Nat :=
  cs.foldl (fun n c => n * 10 + (c.toNat - '0'.toNat)) 0

/-! ### The combined-access-log regex of `src/models/preprocess.py`

`LOG_PATTERN = re.compile(r'^(\S+) (\S+) (\S+) \[(.*?)\] "(.*?)" (\d+) (\d+) "(.*?)" "(.*?)"(.*)?')`

The pattern is embedded as a token list and matched by a backtracking matcher
with Python `re` semantics (`re.match`: anchored at the start, trailing input
allowed; lazy groups take the shortest extent for which the continuation
matches, greedy `\S+`/`\d+`/`.*` the longest). -/

inductive RTok where
  | lit (c : Char)
  | plusS
  | plusD
  | lazyDotStar
  | greedyDotStar
deriving Repr, DecidableEq

def isDigitCh (c : Char) : Bool := '0' ≤ c && c ≤ '9'

/-- Backtracking matcher. The fuel only bounds the nesting depth, which is at
most the number of tokens, so `tokens.length + 1` fuel is always enough. -/
def mtch : Nat → List RTok → List Char → Option (List (List Char))
  | 0, _, _ => none
  | _ + 1, [], _ => some []
  | _ + 1, .lit _ :: _, [] => none
  | fuel + 1, .lit c :: ts, x :: xs =>
    if x = c then mtch fuel ts xs else none
  | fuel + 1, .plusS :: ts, xs =>
    let m := (xs.takeWhile (fun c => !isPySpace c)).length
    (List.range m).findSome? (fun j =>
      let k := m - j
      match mtch fuel ts (xs.drop k) with
      | some caps => some (xs.take k :: caps)
      | none => none)
  | fuel + 1, .plusD :: ts, xs =>
    let m := (xs.takeWhile isDigitCh).length
    (List.range m).findSome? (fun j =>
      let k := m - j
      match mtch fuel ts (xs.drop k) with
      | some caps => some (xs.take k :: caps)
      | none => none)
  | fuel + 1, .lazyDotStar :: ts, xs =>
    let m := (xs.takeWhile (fun c => c ≠ '\n')).length
    (List.range (m + 1)).findSome? (fun i =>
      match mtch fuel ts (xs.drop i) with
      | some caps => some (xs.take i :: caps)
      | none => none)
  | fuel + 1, .greedyDotStar :: ts, xs =>
    let m := (xs.takeWhile (fun c => c ≠ '\n')).length
    (List.range (m + 1)).findSome? (fun j =>
      let k := m - j
      match mtch fuel ts (xs.drop k) with
      | some caps => some (xs.take k :: caps)
      | none => none)

def logPatternToks : List RTok :=
  [.plusS, .lit ' ', .plusS, .lit ' ', .plusS, .lit ' ',
   .lit '[', .lazyDotStar, .lit ']', .lit ' ',
   .lit '"', .lazyDotStar, .lit '"', .lit ' ',
   .plusD, .lit ' ', .plusD, .lit ' ',
   .lit '"', .lazyDotStar, .lit '"', .lit ' ',
   .lit '"', .lazyDotStar, .lit '"',
   .greedyDotStar]

/-- `LOG_PATTERN.match(line)`, returning the ten capture groups. -/
def logPatternMatch (line : String) : Option (List (List Char)) :=
  mtch (logPatternToks.length + 1) logPatternToks line.data

/-- A parsed web/email record: the dict built by `parse_log_line`. -/
structure LogRecord where
  ip : String
  timestamp : String
  method : String
  url : String
  status : Nat
  bytes : Nat
  referer : String
  user_agent : String
deriving Repr, DecidableEq

/-- `parse_log_line` of `src/models/preprocess.py`. -/
def parse_log_line (line : String) : Option LogRecord :=
  match logPatternMatch line with
  | none => none
  | some caps =>
    match caps with
    | ip :: _ident :: _auth :: timestamp :: request :: status :: bytes ::
        referer :: ua :: _extra =>
      let parts := pySplitWs request
      let (method, url) :=
        match parts with
        | m :: u :: _ => (String.mk m, String.mk u)
        | _ => ("UNKNOWN", String.mk request)
      some { ip := String.mk ip
             timestamp := String.mk timestamp
             method := method
             url := url
             status := digitsToNat status
             bytes := digitsToNat bytes
             referer := String.mk referer
             user_agent := String.mk ua }
    | _ => none

/-- `parse_db_log` of `src/models/db_preprocess.py`: after the leading
`re.search(r'\s+(Query|Execute)\s+(.*)', line)` step, try each whitespace
position from the left; `\s+` is greedy but cannot shrink (a shorter run would
have to continue with a whitespace character, which neither keyword starts
with), so at each start the maximal whitespace run is followed by the keyword
test, then another nonempty whitespace run, then `(.*)` (up to a newline). -/
def dbAfterKeyword (cs : List Char) : Option (List Char) :=
  match cs with
  | [] => none
  | c :: rest =>
    if isPySpace c then
      some (((c :: rest).dropWhile isPySpace).takeWhile (fun x => x ≠ '\n'))
    else none

def dbTryWord (cs : List Char) : Option (List Char) :=
  if "Query".data.isPrefixOf cs then dbAfterKeyword (cs.drop 5)
  else if "Execute".data.isPrefixOf cs then dbAfterKeyword (cs.drop 7)
  else none

def dbSearch : List Char → Option (List Char)
  | [] => none
  | c :: rest =>
    if isPySpace c then
      match dbTryWord ((c :: rest).dropWhile isPySpace) with
      | some r => some r
      | none => dbSearch rest
    else dbSearch rest

/-- `parse_db_log(line)`: extract the SQL text after a `Query`/`Execute`
marker, else fall back to the stripped raw line. -/
def parse_db_log (line : String) : String :=
  let l := pyStrip line.data
  match dbSearch l with
  | some r => String.mk (pyStrip r)
  | none => String.mk l

/-! ### Feature extraction -/

/-- `extract_features` of `src/models/preprocess.py`, for a single record
(the DataFrame row): `[url_length, special_chars, is_error, is_post,
ua_length, bytes]`.  The special-character count sums `url.count(ch)` over
nine pairwise-distinct characters, which equals one pass counting membership. -/
def extract_features (r : LogRecord) : List ℚ :=
  [(r.url.length : ℚ),
   (r.url.data.countP (fun c => c ∈ ['%', '\'', '"', '<', '>', '=', ';', '(', ')']) : ℚ),
   (if r.status ≥ 400 then (1 : ℚ) else 0),
   (if upperStr r.method = "POST" then (1 : ℚ) else 0),
   (r.user_agent.length : ℚ),
   (r.bytes : ℚ)]

/-- `extract_sql_features` of `src/models/db_preprocess.py` for one query:
`[length, keyword_count, special_chars, logic_count, has_comment]`. -/
def extract_sql_features (query : String) : List ℚ :=
  let up := (upperStr query).data
  [(query.length : ℚ),
   ((["SELECT", "UNION", "INSERT", "UPDATE", "DELETE", "DROP", "FROM", "WHERE"].map
       (fun k => countOccur k.data up)).sum : ℚ),
   (query.data.countP (fun c => c ∈ ['\'', '"', '-', '#', ';', '=', '(', ')', '*']) : ℚ),
   (([" OR ", " AND ", "1=1", "1=0"].map (fun k => countOccur k.data up)).sum : ℚ),
   (if subStr "--" query || subStr "#" query then (1 : ℚ) else 0)]

/-! ### The classifier artifact and the confidence fallback chain -/

/-- Opaque per-domain model. `decision_function`/`predict_proba` are `none`
when the artifact does not expose that scoring API (the Python call then
raises and is caught). `predict` returns the anomaly label (−1 = anomaly). -/
structure MLModel where
  predict : List ℚ → Int
  decision_function : Option (List ℚ → ℚ)
  predict_proba : Option (List ℚ → List ℚ)

/-- The ordered confidence fallback chain of `analyze_*_log`
(ids_manager.py lines 110–118 / 200–208 / 299–307):
(1) `abs(decision_function(features)[0])`;
(2) else `max(predict_proba(features)[0])`, where `max` of an empty row
raises and falls into the bare `except` default;
(3) else `0.5`. -/
def mlConfidence (m : MLModel) (features : List ℚ) : ℚ :=
  match m.decision_function with
  | some df => |df features|
  | none =>
    match m.predict_proba with
    | some pp =>
      match pp features with
      | [] => 0.5
      | h :: t => t.foldl max h
    | none => 0.5

/-! ### Rounding: Python `round(x, 4)` (round half to even), on ℚ -/

def roundHalfEven (x : ℚ) : ℤ :=
  if x - Int.floor x < 1 / 2 then Int.floor x
  else if (1 : ℚ) / 2 < x - Int.floor x then Int.floor x + 1
  else if Int.floor x % 2 = 0 then Int.floor x else Int.floor x + 1

def round4 (x : ℚ) : ℚ := (roundHalfEven (x * 10000) : ℚ) / 10000

/-! ### Alerts and the manager state -/

structure Alert where
  id : Nat
  timestamp : String
  alert_type : String
  severity : String
  source_ip : String
  attack_type : String
  payload : String
  user_agent : String
  confidence : ℚ
  status : String
deriving Repr, DecidableEq

/-- The mutable state of one `IDSManager` instance. -/
structure IDSState where
  web_model : Option MLModel
  db_model : Option MLModel
  email_model : Option MLModel
  alerts : List Alert
  max_alerts : Nat

/-- `IDSManager._create_alert`: assign id `len(alerts) + 1`, append, pop the
oldest entry when over capacity, return the created alert. -/
def createAlert (st : IDSState) (now alert_type severity attack_type payload
    source_ip user_agent : String) (confidence : ℚ) : Alert × IDSState :=
  let a : Alert :=
    { id := st.alerts.length + 1
      timestamp := now
      alert_type := alert_type
      severity := severity
      source_ip := source_ip
      attack_type := attack_type
      payload := payload
      user_agent := user_agent
      confidence := round4 confidence
      status := "active" }
  let alerts := st.alerts ++ [a]
  let alerts := if alerts.length > st.max_alerts then alerts.drop 1 else alerts
  (a, { st with alerts := alerts })

/-! ### Signature rules (the `manual_alert` logic of each analyzer) -/

def webAdminPatterns : List String :=
  ["admin", "cmd=", "whoami", "shell", "exec", "system", "config", "test",
   "debug", "api/admin"]

def webToolPatterns : List String :=
  ["sqlmap", "curl", "wget", "nikto", "nmap", "burp", "sqlmap", "havij"]

def webSqlPatterns : List String :=
  ["' or '", "or 1=1", "or+1=1", "%20or%20", "union select", "union+select",
   "exec(", "drop ", "drop+", "insert ", "insert+", "update ", "update+"]

/-- Whether the attacker-tool user-agent rule of `analyze_web_log` fires
(ids_manager.py line 86). -/
def webToolHit (r : LogRecord) : Bool :=
  anySub webToolPatterns (lowerStr r.user_agent)

/-- Whether the admin/command URL rule of `analyze_web_log` fires
(ids_manager.py line 69). -/
def webAdminHit (r : LogRecord) : Bool :=
  anySub webAdminPatterns (lowerStr r.url)

/-- Whether the path-traversal URL rule fires (ids_manager.py line 73). -/
def webTraversalHit (r : LogRecord) : Bool :=
  subStr ".." (lowerStr r.url) || subStr "%2e%2e" (lowerStr r.url) ||
  subStr "..%2f" (lowerStr r.url) || subStr "%252e%252e" (lowerStr r.url)

/-- Whether the script-injection URL rule fires (ids_manager.py line 77). -/
def webScriptHit (r : LogRecord) : Bool :=
  subStr "<script" (lowerStr r.url) || subStr "javascript:" (lowerStr r.url) ||
  subStr "%3cscript" (lowerStr r.url) || subStr "<iframe" (lowerStr r.url)

/-- Whether the SQL-injection URL rule fires (ids_manager.py line 81). -/
def webSqlHit (r : LogRecord) : Bool :=
  anySub webSqlPatterns (lowerStr r.url)

/-- The `manual_alert` / `attack_reason` dataflow of `analyze_web_log`
(ids_manager.py lines 64–92): the four URL categories form an `elif` chain
(first match wins among them), and the user-agent category is a separate,
later `if` that overrides the reason when it matches. -/
def webSigReason (r : LogRecord) : Option String :=
  let base : Option String :=
    if webAdminHit r then some "Admin/command access detected"
    else if webTraversalHit r then some "Path traversal attempt"
    else if webScriptHit r then some "Script injection attempt"
    else if webSqlHit r then some "SQL injection pattern detected"
    else none
  if webToolHit r then some ("Suspicious tool: " ++ r.user_agent)
  else base

def dbInjectionPatterns : List String :=
  ["' or '1'='1", "' or 1=1", "' or 'a'='a", "admin' --", "' --", "'; drop",
   "'; delete", "'; exec", "'; execute", "union select", "union all", "exec(",
   "execute(", "script>", "<script"]

def dbStackedKeywords : List String :=
  ["delete", "drop", "truncate", "insert", "update", "exec", "execute"]

/-- Python `len(query.split(';'))`: splitting on a one-character separator
yields (number of separators) + 1 parts. -/
def semiParts (query : String) : Nat := query.data.count ';' + 1

/-- The `manual_alert` / `attack_reason` dataflow of `analyze_db_log`
(ids_manager.py lines 145–184): three sequential `if` blocks, each
overriding the previous reason when it fires; the last (bare DROP/TRUNCATE)
therefore wins when it matches. -/
def dbSigReason (query : String) : Option String :=
  let ql := lowerStr query
  let r1 : Option String :=
    if anySub dbInjectionPatterns ql then some "SQL Injection detected" else none
  let r2 : Option String :=
    if subStr "; " ql && decide (semiParts query > 1) then
      match dbStackedKeywords.find? (fun k => subStr k ql) with
      | some k => some ("Stacked query with " ++ upperStr k ++ " detected")
      | none => r1
    else r1
  if subStr "drop" ql || subStr "truncate" ql then
    some "Dangerous operation detected (DROP/TRUNCATE)"
  else r2

def emailPhishingPatterns : List String :=
  ["verify", "confirm", "urgent", "action+required", "action%20required",
   "update+account", "update%20account", "click+here", "click%20here",
   "login+required", "login%20required", "verify+identity", "verify%20identity",
   "confirm+identity", "confirm%20identity", "unusual+activity",
   "unusual%20activity", "suspend", "expire", "locked", "disable", "compromised"]

def emailSpamPatterns : List String :=
  ["viagra", "casino", "lottery", "prize", "click+link", "click%20link",
   "open+attachment", "open%20attachment", "download", "free+money",
   "free%20money", "congrats", "winner", "claim+reward", "claim%20reward"]

def emailDangerPatterns : List String :=
  [".exe", ".bat", ".cmd", ".scr", ".vbs", ".js", ".zip", ".rar",
   "malware", "trojan", "ransomware", "exploit", "backdoor"]

def emailAgentPatterns : List String :=
  ["curl", "wget", "python", "java", "powershell", "bash", "perl", "ruby",
   "node", "scrapy", "bot", "exploit"]

/-- Whether the suspicious-client user-agent rule of `analyze_email_log`
fires (ids_manager.py line 279). -/
def emailAgentHit (r : LogRecord) : Bool :=
  anySub emailAgentPatterns (lowerStr r.user_agent)

/-- Whether the phishing URL rule fires (ids_manager.py line 248). -/
def emailPhishingHit (r : LogRecord) : Bool :=
  anySub emailPhishingPatterns (lowerStr r.url)

/-- Whether the spam/malware URL rule fires (ids_manager.py line 259). -/
def emailSpamHit (r : LogRecord) : Bool :=
  anySub emailSpamPatterns (lowerStr r.url)

/-- Whether the dangerous-payload URL rule fires (ids_manager.py line 269). -/
def emailDangerHit (r : LogRecord) : Bool :=
  anySub emailDangerPatterns (lowerStr r.url)

/-- The `manual_alert` / `attack_reason` / `severity` dataflow of
`analyze_email_log` (ids_manager.py lines 233–282): four sequential `if`
blocks; each match overrides reason and severity, so the last matching
category wins. Returns `(attack_reason, severity)`. -/
def emailSigReason (r : LogRecord) : Option (String × String) :=
  let s1 : Option (String × String) :=
    if emailPhishingHit r then
      some ("Phishing email pattern detected", "HIGH")
    else none
  let s2 : Option (String × String) :=
    if emailSpamHit r then
      some ("Spam/Malware email pattern detected", "MEDIUM")
    else s1
  let s3 : Option (String × String) :=
    if emailDangerHit r then
      some ("Dangerous file/payload pattern detected", "CRITICAL")
    else s2
  if emailAgentHit r then
    some ("Suspicious email client: " ++ r.user_agent, "HIGH")
  else s3

/-! ### The three analyzers (`IDSManager.analyze_*_log`)

Each returns the optional alert and the updated state. A missing model makes
the method return `None` before anything else runs (lines 56–57, 137–138,
225–226); a parse failure likewise (lines 61–62, 142–143, 230–231). -/

def analyze_web_log (st : IDSState) (now log_line : String) :
    Option Alert × IDSState :=
  match st.web_model with
  | none => (none, st)
  | some model =>
    match parse_log_line log_line with
    | none => (none, st)
    | some parsed =>
      match webSigReason parsed with
      | some reason =>
        let r := createAlert st now "WEB_ANOMALY" "HIGH" reason
          (parsed.method ++ " " ++ parsed.url) parsed.ip parsed.user_agent
          (95 / 100)
        (some r.1, r.2)
      | none =>
        let features := extract_features parsed
        if model.predict features = -1 then
          let r := createAlert st now "WEB_ANOMALY" "HIGH"
            "Web Layer Attack (ML Detection)"
            (parsed.method ++ " " ++ parsed.url) parsed.ip parsed.user_agent
            (mlConfidence model features)
          (some r.1, r.2)
        else (none, st)

def analyze_db_log (st : IDSState) (now log_line : String) :
    Option Alert × IDSState :=
  match st.db_model with
  | none => (none, st)
  | some model =>
    let query := parse_db_log log_line
    if query = "" then (none, st)
    else
      match dbSigReason query with
      | some reason =>
        let r := createAlert st now "DB_ANOMALY" "CRITICAL" reason
          (String.mk (query.data.take 200)) "Unknown" "Unknown" (95 / 100)
        (some r.1, r.2)
      | none =>
        let features := extract_sql_features query
        if model.predict features = -1 then
          let r := createAlert st now "DB_ANOMALY" "CRITICAL"
            "SQL Injection/Database Attack (ML Detection)"
            (String.mk (query.data.take 200)) "Unknown" "Unknown"
            (mlConfidence model features)
          (some r.1, r.2)
        else (none, st)

def analyze_email_log (st : IDSState) (now log_line : String) :
    Option Alert × IDSState :=
  match st.email_model with
  | none => (none, st)
  | some model =>
    match parse_log_line log_line with
    | none => (none, st)
    | some parsed =>
      match emailSigReason parsed with
      | some rs =>
        let r := createAlert st now "EMAIL_ANOMALY" rs.2 rs.1
          (parsed.method ++ " " ++ parsed.url) parsed.ip "Unknown" (90 / 100)
        (some r.1, r.2)
      | none =>
        let features := extract_features parsed
        if model.predict features = -1 then
          let r := createAlert st now "EMAIL_ANOMALY" "MEDIUM"
            "Email Service Attack (ML Detection)"
            (parsed.method ++ " " ++ parsed.url) parsed.ip "Unknown"
            (mlConfidence model features)
          (some r.1, r.2)
        else (none, st)

/-! ### The alert store query (`IDSManager.get_alerts`) -/

/-- The two truthiness-guarded filters of `get_alerts` (`if alert_type:` /
`if severity:` — `None` and the empty string both skip the filter). -/
def filterAlerts (alerts : List Alert) (alert_type severity : Option String) :
    List Alert :=
  let f1 :=
    match alert_type with
    | some ty => if ty = "" then alerts else alerts.filter (fun a => a.alert_type = ty)
    | none => alerts
  match severity with
  | some sv => if sv = "" then f1 else f1.filter (fun a => a.severity = sv)
  | none => f1

/-- Python `l[-limit:]` for an `int` limit. -/
def pySliceLast (l : List Alert) (limit : Int) : List Alert :=
  let idx : Int := -limit
  if idx < 0 then l.drop (max 0 ((l.length : Int) + idx)).toNat
  else l.drop idx.toNat

/-- `IDSManager.get_alerts(alert_type, severity, limit)` (default limit 50). -/
def get_alerts (st : IDSState) (alert_type severity : Option String)
    (limit : Int) : List Alert :=
  pySliceLast (filterAlerts st.alerts alert_type severity) limit

/-! ### The API endpoints of `src/enhanced_api.py` (decision logic only;
Flask plumbing, JSON serialization and the on-disk snapshot are outside the
embedding). -/

structure SingleResp where
  httpStatus : Nat
  error : Option String
  alert : Option Alert
  detected : Bool
deriving Repr, DecidableEq

/-- `POST /api/ids/analyze` (`analyze_log`, enhanced_api.py lines 1186–1218):
empty line → 400; dispatch on the domain tag; unknown tag → 400
`Unknown log type`. -/
def analyze_log_endpoint (st : IDSState) (now log_line log_type : String) :
    SingleResp × IDSState :=
  if log_line = "" then
    ({ httpStatus := 400, error := some "log_line is required",
       alert := none, detected := false }, st)
  else if log_type = "web" then
    let r := analyze_web_log st now log_line
    ({ httpStatus := 200, error := none, alert := r.1, detected := r.1.isSome }, r.2)
  else if log_type = "db" then
    let r := analyze_db_log st now log_line
    ({ httpStatus := 200, error := none, alert := r.1, detected := r.1.isSome }, r.2)
  else if log_type = "email" then
    let r := analyze_email_log st now log_line
    ({ httpStatus := 200, error := none, alert := r.1, detected := r.1.isSome }, r.2)
  else
    ({ httpStatus := 400, error := some ("Unknown log type: " ++ log_type),
       alert := none, detected := false }, st)

structure BulkResp where
  httpStatus : Nat
  error : Option String
  total_analyzed : Nat
  alerts_detected : Nat
  alerts : List Alert
deriving Repr, DecidableEq

/-- One iteration of the `bulk_analyze_logs` loop: an unknown tag leaves
`alert = None` (there is no `else` branch), so the line is silently skipped. -/
def bulkStep (now log_type : String) (acc : List Alert × IDSState)
    (log_line : String) : List Alert × IDSState :=
  let r : Option Alert × IDSState :=
    if log_type = "web" then analyze_web_log acc.2 now log_line
    else if log_type = "db" then analyze_db_log acc.2 now log_line
    else if log_type = "email" then analyze_email_log acc.2 now log_line
    else (none, acc.2)
  match r.1 with
  | some a => (acc.1 ++ [a], r.2)
  | none => (acc.1, r.2)

/-- `POST /api/ids/bulk-analyze` (`bulk_analyze_logs`, enhanced_api.py lines
1220–1259): empty list → 400; otherwise every line is fed through the
per-type dispatch and the detected alerts are collected. -/
def bulk_analyze_endpoint (st : IDSState) (now : String) (logs : List String)
    (log_type : String) : BulkResp × IDSState :=
  if logs = [] then
    ({ httpStatus := 400, error := some "logs array is required",
       total_analyzed := 0, alerts_detected := 0, alerts := [] }, st)
  else
    let res := logs.foldl (bulkStep now log_type) ([], st)
    ({ httpStatus := 200, error := none, total_analyzed := logs.length,
       alerts_detected := res.1.length, alerts := res.1 }, res.2)

structure AlertsResp where
  httpStatus : Nat
  alerts : List Alert
  total : Nat
deriving Repr, DecidableEq

/-- `GET /api/ids/alerts` (`get_alerts`, enhanced_api.py lines 1128–1146):
the `type`, `severity` and `limit` query parameters are passed straight to
`IDSManager.get_alerts`; `limit` defaults to 50 when absent. -/
def get_alerts_endpoint (st : IDSState) (alert_type severity : Option String)
    (limit : Option Int) : AlertsResp :=
  let alerts := get_alerts st alert_type severity (limit.getD 50)
  { httpStatus := 200, alerts := alerts, total := alerts.length }

/-! ### Iterated alert creation (verification harness for the store laws) -/

/-- Parameters of one `_create_alert` call. -/
structure AlertParams where
  now : String
  alert_type : String
  severity : String
  attack_type : String
  payload : String
  source_ip : String
  user_agent : String
  confidence : ℚ

def createAlertP (st : IDSState) (p : AlertParams) : Alert × IDSState :=
  createAlert st p.now p.alert_type p.severity p.attack_type p.payload
    p.source_ip p.user_agent p.confidence

/-- Run a sequence of `_create_alert` calls, returning the list of created
alerts in creation order together with the final state. -/
def appendRun (st : IDSState) : List AlertParams → List Alert × IDSState
  | [] => ([], st)
  | p :: ps =>
    let r := createAlertP st p
    let rest := appendRun r.2 ps
    (r.1 :: rest.1, rest.2)

/-- The last `n` elements of a list. -/
def takeLast (n : Nat) (l : List Alert) : List Alert := l.drop (l.length - n)

/-- A fresh manager state as built by `IDSManager.__init__` when no model
artifact is on disk: empty store, capacity 100. -/
def freshState : IDSState :=
  { web_model := none, db_model := none, email_model := none,
    alerts := [], max_alerts := 100 }

/-! ### Helper lemmas about the bounded alert store -/

theorem takeLast_length (n : Nat) (l : List Alert) :
    (takeLast n l).length = min n l.length := by
  simp only [takeLast, List.length_drop]
  omega

theorem takeLast_of_le (n : Nat) (l : List Alert) (h : l.length ≤ n) :
    takeLast n l = l := by
  simp only [takeLast]
  rw [Nat.sub_eq_zero_of_le h, List.drop_zero]

theorem takeLast_idem_append (n : Nat) (l r : List Alert) :
    takeLast n (takeLast n l ++ r) = takeLast n (l ++ r) := by
  by_cases h : l.length ≤ n
  · rw [takeLast_of_le n l h]
  · simp only [takeLast, List.length_append, List.length_drop,
      List.drop_append_eq_append_drop, List.drop_drop]
    have e1 : l.length - n + (l.length - (l.length - n) + r.length - n) =
        l.length + r.length - n := by omega
    have e2 : l.length - (l.length - n) + r.length - n - (l.length - (l.length - n)) =
        l.length + r.length - n - l.length := by omega
    rw [e1, e2]

theorem createAlertP_id (st : IDSState) (p : AlertParams) :
    (createAlertP st p).1.id = st.alerts.length + 1 := rfl

theorem createAlertP_max (st : IDSState) (p : AlertParams) :
    (createAlertP st p).2.max_alerts = st.max_alerts := rfl

theorem createAlertP_alerts (st : IDSState) (p : AlertParams)
    (h : st.alerts.length ≤ st.max_alerts) :
    (createAlertP st p).2.alerts =
      takeLast st.max_alerts (st.alerts ++ [(createAlertP st p).1]) := by
  simp only [createAlertP, createAlert, takeLast, List.length_append,
    List.length_cons, List.length_nil]
  by_cases hlt : st.alerts.length + 1 > st.max_alerts
  · rw [if_pos hlt]
    congr 1
    omega
  · rw [if_neg hlt]
    have : st.alerts.length + (0 + 1) - st.max_alerts = 0 := by omega
    rw [this, List.drop_zero]

theorem createAlertP_length (st : IDSState) (p : AlertParams)
    (h : st.alerts.length ≤ st.max_alerts) :
    (createAlertP st p).2.alerts.length =
      min (st.alerts.length + 1) st.max_alerts := by
  have := createAlertP_alerts st p h
  rw [show (createAlertP st p).2.alerts.length =
      (takeLast st.max_alerts (st.alerts ++ [(createAlertP st p).1])).length from
      by rw [this], takeLast_length]
  simp only [List.length_append, List.length_cons, List.length_nil]
  omega

theorem appendRun_max : ∀ (ps : List AlertParams) (st : IDSState),
    (appendRun st ps).2.max_alerts = st.max_alerts
  | [], _ => rfl
  | p :: ps, st => by
    simp only [appendRun]
    rw [appendRun_max ps]
    exact createAlertP_max st p

theorem appendRun_created_length : ∀ (ps : List AlertParams) (st : IDSState),
    (appendRun st ps).1.length = ps.length
  | [], _ => rfl
  | p :: ps, st => by
    simp only [appendRun, List.length_cons]
    rw [appendRun_created_length ps]

theorem appendRun_alerts : ∀ (ps : List AlertParams) (st : IDSState),
    st.alerts.length ≤ st.max_alerts →
    (appendRun st ps).2.alerts =
      takeLast st.max_alerts (st.alerts ++ (appendRun st ps).1)
  | [], st, h => by
    simp only [appendRun, List.append_nil]
    exact (takeLast_of_le _ _ h).symm
  | p :: ps, st, h => by
    simp only [appendRun]
    have h1 : (createAlertP st p).2.alerts.length ≤ (createAlertP st p).2.max_alerts := by
      rw [createAlertP_length st p h, createAlertP_max]
      omega
    rw [appendRun_alerts ps (createAlertP st p).2 h1, createAlertP_max,
      createAlertP_alerts st p h, takeLast_idem_append]
    rw [List.append_assoc]
    rfl

theorem appendRun_ids : ∀ (ps : List AlertParams) (st : IDSState),
    st.alerts.length ≤ st.max_alerts →
    (appendRun st ps).1.map (fun a => a.id) =
      (List.range ps.length).map
        (fun i => min (st.alerts.length + i) st.max_alerts + 1)
  | [], _, _ => rfl
  | p :: ps, st, h => by
    simp only [appendRun, List.map_cons, List.length_cons]
    have h1 : (createAlertP st p).2.alerts.length ≤ (createAlertP st p).2.max_alerts := by
      rw [createAlertP_length st p h, createAlertP_max]
      omega
    rw [appendRun_ids ps (createAlertP st p).2 h1, createAlertP_id,
      createAlertP_length st p h, createAlertP_max,
      List.range_succ_eq_map, List.map_cons, List.map_map]
    congr 1
    · omega
    · have hfun :
          (fun i => min (min (st.alerts.length + 1) st.max_alerts + i) st.max_alerts + 1) =
          ((fun i => min (st.alerts.length + i) st.max_alerts + 1) ∘ Nat.succ) := by
        funext i
        simp only [Function.comp_apply, Nat.succ_eq_add_one]
        omega
      rw [hfun]

/-! ### Helper lemmas about `get_alerts` slicing and the bulk loop -/

theorem pySliceLast_zero (l : List Alert) : pySliceLast l 0 = l := by
  simp [pySliceLast]

theorem pySliceLast_pos (l : List Alert) (n : Int) (h : 0 < n) :
    pySliceLast l n = l.drop (l.length - n.toNat) := by
  simp only [pySliceLast]
  rw [if_pos (by omega)]
  congr 1
  omega

theorem bulkStep_unknown (now ty : String) (acc : List Alert × IDSState)
    (line : String) (h1 : ty ≠ "web") (h2 : ty ≠ "db") (h3 : ty ≠ "email") :
    bulkStep now ty acc line = acc := by
  simp [bulkStep, h1, h2, h3]

theorem foldl_bulkStep_unknown (now ty : String)
    (h1 : ty ≠ "web") (h2 : ty ≠ "db") (h3 : ty ≠ "email") :
    ∀ (logs : List String) (acc : List Alert × IDSState),
    logs.foldl (bulkStep now ty) acc = acc
  | [], _ => rfl
  | line :: logs, acc => by
    simp only [List.foldl_cons]
    rw [bulkStep_unknown now ty acc line h1 h2 h3,
      foldl_bulkStep_unknown now ty h1 h2 h3 logs]

/-! ### Helper lemmas about substring matching and confidence -/

theorem infixOfB_iff (p s : List Char) : infixOfB p s = true ↔ p <:+: s := by
  simp only [infixOfB, List.any_eq_true]
  constructor
  · rintro ⟨t, ht, hp⟩
    rw [List.mem_tails] at ht
    rw [List.isPrefixOf_iff_prefix] at hp
    exact List.infix_iff_prefix_suffix.mpr ⟨t, hp, ht⟩
  · intro h
    obtain ⟨t, hp, hs⟩ := List.infix_iff_prefix_suffix.mp h
    exact ⟨t, (List.mem_tails t s).mpr hs, List.isPrefixOf_iff_prefix.mpr hp⟩

theorem subStr_mono (p q s : String) (hpq : p.data <:+: q.data)
    (h : subStr q s = true) : subStr p s = true := by
  rw [subStr, infixOfB_iff] at h ⊢
  exact hpq.trans h

theorem subStr_length_le (p s : String) (h : subStr p s = true) :
    p.data.length ≤ s.data.length :=
  ((infixOfB_iff p.data s.data).mp h).length_le

theorem lowerStr_data_length (s : String) :
    (lowerStr s).data.length = s.data.length := by
  simp [lowerStr]

theorem mlConfidence_default (m : MLModel) (φ : List ℚ)
    (h1 : m.decision_function = none) (h2 : m.predict_proba = none) :
    mlConfidence m φ = 1 / 2 := by
  simp only [mlConfidence, h1, h2]
  norm_num

theorem mlConfidence_df (m : MLModel) (φ : List ℚ) (df : List ℚ → ℚ)
    (h : m.decision_function = some df) : mlConfidence m φ = |df φ| := by
  simp [mlConfidence, h]

theorem round4_95 : round4 (95 / 100) = 19 / 20 := by
  norm_num [round4, roundHalfEven]

theorem round4_90 : round4 (90 / 100) = 9 / 10 := by
  norm_num [round4, roundHalfEven]

theorem round4_half : round4 (1 / 2) = 1 / 2 := by
  norm_num [round4, roundHalfEven]

/-- The seed of a running `max` never exceeds the result. -/
theorem le_foldl_max : ∀ (t : List ℚ) (h : ℚ), h ≤ t.foldl max h
  | [], _ => le_refl _
  | y :: t, h =>
    le_trans (le_max_left h y) (le_foldl_max t (max h y))

/-- `t.foldl max h` (Python `max([h, *t])`) bounds every element of `h :: t`. -/
theorem foldl_max_le : ∀ (t : List ℚ) (h x : ℚ), x ∈ h :: t → x ≤ t.foldl max h
  | [], h, x, hx => by
    rw [List.mem_singleton] at hx
    exact hx.le
  | y :: t, h, x, hx => by
    rcases List.mem_cons.mp hx with hxh | hx'
    · exact hxh.le.trans (le_trans (le_max_left h y) (le_foldl_max t (max h y)))
    · rcases List.mem_cons.mp hx' with hxy | hxt
      · exact hxy.le.trans (le_trans (le_max_right h y) (le_foldl_max t (max h y)))
      · exact foldl_max_le t (max h y) x (List.mem_cons_of_mem _ hxt)

/-- `t.foldl max h` is one of the elements of `h :: t`. -/
theorem foldl_max_mem : ∀ (t : List ℚ) (h : ℚ), t.foldl max h ∈ h :: t
  | [], h => List.mem_singleton.mpr rfl
  | y :: t, h => by
    rw [List.foldl_cons]
    have ih := foldl_max_mem t (max h y)
    rcases List.mem_cons.mp ih with hm | hm
    · rcases max_choice h y with hc | hc
      · rw [hm, hc]
        exact List.mem_cons_self _ _
      · rw [hm, hc]
        exact List.mem_cons_of_mem _ (List.mem_cons_self _ _)
    · exact List.mem_cons_of_mem _ (List.mem_cons_of_mem _ hm)

theorem round4_nonneg (x : ℚ) (h : 0 ≤ x) : 0 ≤ round4 x := by
  have hf : (0 : ℤ) ≤ roundHalfEven (x * 10000) := by
    have hx : (0 : ℚ) ≤ x * 10000 := by positivity
    have hfl : (0 : ℤ) ≤ Int.floor (x * 10000) := Int.floor_nonneg.mpr hx
    unfold roundHalfEven
    split
    · exact hfl
    · split
      · omega
      · split
        · exact hfl
        · omega
  unfold round4
  positivity

/-! ### Concrete fixtures used by witnesses and counterexamples -/

/-- An artifact exposing neither scoring probe and predicting "benign". -/
def mBenign : MLModel :=
  { predict := fun _ => 1, decision_function := none, predict_proba := none }

/-- An artifact exposing neither scoring probe and predicting "anomaly". -/
def mAnomaly : MLModel :=
  { predict := fun _ => -1, decision_function := none, predict_proba := none }

/-- An artifact whose decision function returns 5 and which predicts
"anomaly": legal under the loading contract, since the artifact is opaque. -/
def mDecision5 : MLModel :=
  { predict := fun _ => -1, decision_function := some (fun _ => 5),
    predict_proba := none }

/-- An artifact exposing only the class-probability probe, with row
`[0.3, 0.6]`. -/
def mProba : MLModel :=
  { predict := fun _ => -1, decision_function := none,
    predict_proba := some (fun _ => [3 / 10, 6 / 10]) }

def stWebBenign : IDSState := { freshState with web_model := some mBenign }
def stWebAnomaly : IDSState := { freshState with web_model := some mAnomaly }
def stWebDecision5 : IDSState := { freshState with web_model := some mDecision5 }
def stDbBenign : IDSState := { freshState with db_model := some mBenign }
def stEmailBenign : IDSState := { freshState with email_model := some mBenign }
def stAllBenign : IDSState :=
  { freshState with
    web_model := some mBenign
    db_model := some mBenign
    email_model := some mBenign }

/-- A web line whose URL matches the admin/command category and whose
user-agent matches no attacker tool. -/
def adminLine : String :=
  "1.2.3.4 - - [27/Nov/2024:10:30:04 +0000] \"GET /admin HTTP/1.1\" 200 123 \"-\" \"Mozilla/5.0\""

def rAdmin : LogRecord :=
  { ip := "1.2.3.4", timestamp := "27/Nov/2024:10:30:04 +0000", method := "GET",
    url := "/admin", status := 200, bytes := 123, referer := "-",
    user_agent := "Mozilla/5.0" }

/-- A web line whose URL matches the admin/command category and whose
user-agent also matches the attacker-tool category. -/
def toolLine : String :=
  "1.2.3.4 - - [27/Nov/2024:10:30:04 +0000] \"GET /admin HTTP/1.1\" 200 123 \"-\" \"sqlmap\""

def rTool : LogRecord :=
  { ip := "1.2.3.4", timestamp := "27/Nov/2024:10:30:04 +0000", method := "GET",
    url := "/admin", status := 200, bytes := 123, referer := "-",
    user_agent := "sqlmap" }

/-- A record whose user-agent matches the email automation category. -/
def rCurl : LogRecord :=
  { ip := "1.2.3.4", timestamp := "ts", method := "GET", url := "/inbox",
    status := 200, bytes := 42, referer := "-", user_agent := "curl/8.0" }

/-- An email line whose URL matches both the phishing category (`verify`,
evaluated first) and the spam category (`lottery`, evaluated second), with a
user-agent matching neither the danger nor the automation category. -/
def phishSpamLine : String :=
  "1.2.3.4 - - [ts] \"GET /mail?subject=verify+lottery HTTP/1.1\" 200 123 \"-\" \"Mozilla/5.0\""

def rPhishSpam : LogRecord :=
  { ip := "1.2.3.4", timestamp := "ts", method := "GET",
    url := "/mail?subject=verify+lottery", status := 200, bytes := 123,
    referer := "-", user_agent := "Mozilla/5.0" }

/-- A benign web line: no signature category matches. -/
def benignLine : String :=
  "1.2.3.4 - - [27/Nov/2024:10:30:04 +0000] \"GET /index.html HTTP/1.1\" 200 123 \"-\" \"Mozilla/5.0\""

def rBenign : LogRecord :=
  { ip := "1.2.3.4", timestamp := "27/Nov/2024:10:30:04 +0000", method := "GET",
    url := "/index.html", status := 200, bytes := 123, referer := "-",
    user_agent := "Mozilla/5.0" }

/-- A MySQL general-log line carrying a `DROP TABLE`. -/
def dropLine : String :=
  "2025-11-19T10:00:00.123456Z   3 Query   DROP TABLE users"

/-- A benign SQL query (raw-line fallback of the db parser). -/
def benignQueryLine : String := "SELECT * FROM users WHERE id=1"

/-- Cheap alert parameters for exercising the store. -/
def p0 : AlertParams :=
  { now := "T", alert_type := "WEB_ANOMALY", severity := "HIGH",
    attack_type := "x", payload := "p", source_ip := "ip", user_agent := "ua",
    confidence := 0 }

/-! ## The claims -/

/-- **C1, counterexample.** The claim says a domain whose classifier failed to
load still evaluates the signature rules and returns a signature alert on a
match. On a fresh manager with no web model, `analyze_web_log` returns `None`
for a line that parses and whose URL matches the admin/command signature
category — the signature engine is never consulted. -/
theorem c1_counterexample :
    analyze_web_log freshState "T" adminLine = (none, freshState) ∧
    parse_log_line adminLine = some rAdmin ∧
    webSigReason rAdmin = some "Admin/command access detected" :=
  ⟨rfl, by decide, by decide⟩

/-- **C1, amended.** If the domain's classifier artifact is absent
(`self.*_model` is `None`), the analyzer returns `None` immediately, for every
input line: analysis — including the deterministic signature rules — is
skipped entirely for that domain (the guard at ids_manager.py lines 56–57,
137–138, 225–226), rather than running in signature-only mode. No exception
is raised (the embedding is total). -/
theorem c1_corrected (st : IDSState) (now line : String) :
    (st.web_model = none → analyze_web_log st now line = (none, st)) ∧
    (st.db_model = none → analyze_db_log st now line = (none, st)) ∧
    (st.email_model = none → analyze_email_log st now line = (none, st)) := by
  refine ⟨fun h => ?_, fun h => ?_, fun h => ?_⟩
  · simp [analyze_web_log, h]
  · simp [analyze_db_log, h]
  · simp [analyze_email_log, h]

/-- C1 witness: a fresh manager (all three artifacts missing) skips all three
domains on a line whose signature rules would match. -/
theorem c1_corrected_witness :
    analyze_web_log freshState "T" toolLine = (none, freshState) ∧
    analyze_db_log freshState "T" toolLine = (none, freshState) ∧
    analyze_email_log freshState "T" toolLine = (none, freshState) :=
  ⟨(c1_corrected freshState "T" toolLine).1 rfl,
   (c1_corrected freshState "T" toolLine).2.1 rfl,
   (c1_corrected freshState "T" toolLine).2.2 rfl⟩

/-- **C2, counterexample.** The claim says the first matching category
determines the alert's attack type and severity and no later category can
override it — in particular a URL matching admin/command together with an
attacker-tool user-agent reports the admin/command type. Two refutations:
on `toolLine` (URL `/admin`, user-agent `sqlmap`) both categories match, yet
the reported attack type is the attacker-tool one (the user-agent check at
ids_manager.py line 86 is a separate `if`, not an `elif`, and overwrites
`attack_reason`); and on `phishSpamLine` both the phishing category
(evaluated first, severity HIGH) and the spam category (evaluated second,
severity MEDIUM) match, yet the alert carries the spam type and MEDIUM
severity (lines 248–262: the later `if` overwrites both fields). -/
theorem c2_counterexample :
    (webAdminHit rTool = true ∧ webToolHit rTool = true ∧
      (analyze_web_log stWebBenign "T" toolLine).1.map (fun a => a.attack_type) =
        some "Suspicious tool: sqlmap" ∧
      "Suspicious tool: sqlmap" ≠ "Admin/command access detected") ∧
    (emailPhishingHit rPhishSpam = true ∧ emailSpamHit rPhishSpam = true ∧
      (analyze_email_log stEmailBenign "T" phishSpamLine).1.map
          (fun a => (a.attack_type, a.severity)) =
        some ("Spam/Malware email pattern detected", "MEDIUM") ∧
      "Spam/Malware email pattern detected" ≠ "Phishing email pattern detected" ∧
      "MEDIUM" ≠ "HIGH") := by
  constructor
  · refine ⟨by decide, by decide, ?_, by decide⟩
    have hp : parse_log_line toolLine = some rTool := by decide
    have hs : webSigReason rTool = some "Suspicious tool: sqlmap" := by decide
    simp [analyze_web_log, stWebBenign, hp, hs, createAlert]
  · refine ⟨by decide, by decide, ?_, by decide, by decide⟩
    have hp : parse_log_line phishSpamLine = some rPhishSpam := by decide
    have hs : emailSigReason rPhishSpam =
        some ("Spam/Malware email pattern detected", "MEDIUM") := by decide
    simp [analyze_email_log, stEmailBenign, hp, hs, createAlert]

/-- **C2, amended.** Full characterization of both signature engines. Web:
the four URL categories form a first-match-wins `elif` chain, but the
attacker-tool user-agent category is evaluated afterwards as an independent
check and overrides the attack type whenever it matches — so the effective
priority is tool > admin/command > traversal > script > SQL. Email: the four
categories are sequential `if`s in the order phishing, spam, dangerous
payload, automation user-agent, each overwriting both attack type and
severity, so the *last* matching category in evaluation order wins — the
effective priority is automation UA (HIGH) > dangerous payload (CRITICAL) >
spam (MEDIUM) > phishing (HIGH). -/
theorem c2_corrected (r : LogRecord) :
    webSigReason r =
      (if webToolHit r then some ("Suspicious tool: " ++ r.user_agent)
       else if webAdminHit r then some "Admin/command access detected"
       else if webTraversalHit r then some "Path traversal attempt"
       else if webScriptHit r then some "Script injection attempt"
       else if webSqlHit r then some "SQL injection pattern detected"
       else none) ∧
    emailSigReason r =
      (if emailAgentHit r then
        some ("Suspicious email client: " ++ r.user_agent, "HIGH")
       else if emailDangerHit r then
        some ("Dangerous file/payload pattern detected", "CRITICAL")
       else if emailSpamHit r then
        some ("Spam/Malware email pattern detected", "MEDIUM")
       else if emailPhishingHit r then
        some ("Phishing email pattern detected", "HIGH")
       else none) := by
  constructor
  · rfl
  · by_cases h1 : emailAgentHit r = true <;>
      by_cases h2 : emailDangerHit r = true <;>
      by_cases h3 : emailSpamHit r = true <;>
      by_cases h4 : emailPhishingHit r = true <;>
      simp [emailSigReason, h1, h2, h3, h4]

/-- **C9 (confirmed).** A line that fails to parse for the web/email domains
makes the analyzer return `None` with the state unchanged, for every manager
state — in particular for every classifier artifact, so neither the feature
extractor, the signature engine nor the classifier is ever consulted; the
embedding is total, so no exception escapes. -/
theorem c9_confirmed (st : IDSState) (now line : String)
    (h : parse_log_line line = none) :
    analyze_web_log st now line = (none, st) ∧
    analyze_email_log st now line = (none, st) := by
  constructor
  · cases hw : st.web_model <;> simp [analyze_web_log, hw, h]
  · cases he : st.email_model <;> simp [analyze_email_log, he, h]

/-- C9 witness: the unparseable line `"garbage"` on a manager whose web and
email artifacts are loaded. -/
theorem c9_confirmed_witness :
    analyze_web_log stAllBenign "T" "garbage" = (none, stAllBenign) ∧
    analyze_email_log stAllBenign "T" "garbage" = (none, stAllBenign) :=
  c9_confirmed stAllBenign "T" "garbage" (by decide)

/-- **C3, counterexample.** The claim says alert IDs are strictly increasing
across a sequence of appends, *including after eviction at capacity*. But
`_create_alert` assigns `id = len(self.alerts) + 1` (ids_manager.py line 327),
and after the store is full the length stays at 100, so from the 101st alert
on every new alert receives id 101: after 102 appends to a fresh store the
created-id sequence is not strictly increasing. -/
theorem c3_counterexample :
    ¬ (((appendRun freshState (List.replicate 102 p0)).1.map
        (fun a => a.id)).Pairwise (· < ·)) := by
  intro hp
  have hids := appendRun_ids (List.replicate 102 p0) freshState (by simp [freshState])
  rw [hids] at hp
  rw [List.pairwise_iff_getElem] at hp
  have h := hp 100 101 (by simp) (by simp) (by omega)
  simp only [List.getElem_map, List.getElem_range, freshState] at h
  omega

/-- **C3, amended.** For a fresh store of capacity 100, the id assigned to the
i-th created alert (0-based) is `min i 100 + 1`: ids are strictly increasing
exactly while the number of appends stays at or below capacity + 1 (101), and
once the store has been full every subsequent alert receives the repeated id
101. -/
theorem c3_corrected (ps : List AlertParams) :
    ((appendRun freshState ps).1.map (fun a => a.id)) =
      (List.range ps.length).map (fun i => min i 100 + 1) ∧
    (ps.length ≤ 101 →
      ((appendRun freshState ps).1.map (fun a => a.id)).Pairwise (· < ·)) := by
  have hids := appendRun_ids ps freshState (by simp [freshState])
  have hids' : ((appendRun freshState ps).1.map (fun a => a.id)) =
      (List.range ps.length).map (fun i => min i 100 + 1) := by
    rw [hids]
    simp [freshState]
  refine ⟨hids', fun hlen => ?_⟩
  rw [hids', List.pairwise_iff_getElem]
  intro i j hi hj hij
  simp only [List.length_map, List.length_range] at hi hj
  simp only [List.getElem_map, List.getElem_range]
  omega

/-- C3 witness: five appends to a fresh store do produce strictly increasing
ids. -/
theorem c3_corrected_witness :
    ((appendRun freshState (List.replicate 5 p0)).1.map
      (fun a => a.id)).Pairwise (· < ·) :=
  (c3_corrected (List.replicate 5 p0)).2 (by simp)

/-- **C4 (confirmed).** Bounded-buffer law: appending `100 + k` alerts to a
fresh capacity-100 store leaves exactly 100 alerts, namely the last 100
created ones in creation (arrival) order; and in the 101-append scenario the
store holds the 2nd…101st created alerts, so the 2nd-ever-appended alert is
present and carries the smallest id in the store. -/
theorem c4_confirmed :
    (∀ (k : Nat) (ps : List AlertParams), ps.length = 100 + k →
      (appendRun freshState ps).2.alerts.length = 100 ∧
      (appendRun freshState ps).2.alerts =
        takeLast 100 (appendRun freshState ps).1) ∧
    (∀ ps : List AlertParams, ps.length = 101 →
      (appendRun freshState ps).2.alerts.length = 100 ∧
      (appendRun freshState ps).2.alerts = (appendRun freshState ps).1.drop 1 ∧
      ∃ b, (appendRun freshState ps).1[1]? = some b ∧
        b ∈ (appendRun freshState ps).2.alerts ∧
        ∀ a ∈ (appendRun freshState ps).2.alerts, b.id ≤ a.id) := by
  have key : ∀ ps : List AlertParams,
      (appendRun freshState ps).2.alerts = takeLast 100 (appendRun freshState ps).1 := by
    intro ps
    have h := appendRun_alerts ps freshState (by simp [freshState])
    simpa [freshState] using h
  constructor
  · intro k ps hlen
    refine ⟨?_, key ps⟩
    rw [key ps, takeLast_length, appendRun_created_length, hlen]
    omega
  · intro ps hlen
    have hclen : (appendRun freshState ps).1.length = 101 := by
      rw [appendRun_created_length, hlen]
    have hdrop : (appendRun freshState ps).2.alerts = (appendRun freshState ps).1.drop 1 := by
      rw [key ps]
      simp only [takeLast, hclen]
    have hstlen : (appendRun freshState ps).2.alerts.length = 100 := by
      rw [hdrop, List.length_drop, hclen]
    have hids := appendRun_ids ps freshState (by simp [freshState])
    have hid : ∀ (i : Nat) (hi : i < (appendRun freshState ps).1.length),
        ((appendRun freshState ps).1[i]).id = min i 100 + 1 := by
      intro i hi
      have hi' : i < ((appendRun freshState ps).1.map (fun a => a.id)).length := by
        simpa using hi
      have e1 : ((appendRun freshState ps).1.map (fun a => a.id))[i] =
          ((appendRun freshState ps).1[i]).id := List.getElem_map _
      have e2 := List.getElem_of_eq hids hi'
      rw [e1] at e2
      rw [e2, List.getElem_map, List.getElem_range]
      simp only [freshState, List.length_nil, Nat.zero_add]
    have h1lt : 1 < (appendRun freshState ps).1.length := by omega
    refine ⟨hstlen, hdrop, ?_⟩
    have hsome : (appendRun freshState ps).1[1]? =
        some ((appendRun freshState ps).1[1]) :=
      List.getElem?_eq_getElem h1lt
    refine ⟨(appendRun freshState ps).1[1], hsome, ?_, ?_⟩
    · rw [hdrop, List.mem_iff_getElem]
      refine ⟨0, ?_, ?_⟩
      · rw [List.length_drop, hclen]
        omega
      · rw [List.getElem_drop]
    · intro a ha
      rw [hdrop, List.mem_iff_getElem] at ha
      obtain ⟨j, hj, hja⟩ := ha
      rw [List.getElem_drop] at hja
      have hj' : j < 100 := by
        rw [List.length_drop, hclen] at hj
        omega
      have h1 := hid 1 h1lt
      have h2 := hid (1 + j) (by omega)
      rw [hja] at h2
      omega

/-- C4 witness: instances of both parts — 100 appends (k = 0) and the
101-append scenario. -/
theorem c4_confirmed_witness :
    ((appendRun freshState (List.replicate 100 p0)).2.alerts.length = 100 ∧
      (appendRun freshState (List.replicate 100 p0)).2.alerts =
        takeLast 100 (appendRun freshState (List.replicate 100 p0)).1) ∧
    ((appendRun freshState (List.replicate 101 p0)).2.alerts.length = 100 ∧
      (appendRun freshState (List.replicate 101 p0)).2.alerts =
        (appendRun freshState (List.replicate 101 p0)).1.drop 1 ∧
      ∃ b, (appendRun freshState (List.replicate 101 p0)).1[1]? = some b ∧
        b ∈ (appendRun freshState (List.replicate 101 p0)).2.alerts ∧
        ∀ a ∈ (appendRun freshState (List.replicate 101 p0)).2.alerts, b.id ≤ a.id) :=
  ⟨c4_confirmed.1 0 (List.replicate 100 p0) (by simp),
   c4_confirmed.2 (List.replicate 101 p0) (by simp)⟩

/-- **C5, counterexample.** The claim says the bulk analyze entry point
surfaces an explicit rejection for an unsupported domain tag. But
`bulk_analyze_logs` has no `else` branch in its dispatch: for tag `"ftp"`
with a nonempty log list, it answers HTTP 200 with no error and zero alerts
— the request is silently ignored, not rejected. -/
theorem c5_counterexample :
    (bulk_analyze_endpoint freshState "T" ["x"] "ftp").1.httpStatus = 200 ∧
    (bulk_analyze_endpoint freshState "T" ["x"] "ftp").1.error = none ∧
    (bulk_analyze_endpoint freshState "T" ["x"] "ftp").1.alerts_detected = 0 :=
  ⟨rfl, rfl, rfl⟩

/-- **C5, amended.** For an unsupported domain tag, the single-line endpoint
rejects explicitly (HTTP 400, `Unknown log type: <tag>`, state unchanged),
but the bulk endpoint silently skips every line: it returns HTTP 200 with no
error and zero detected alerts, leaving the state unchanged. -/
theorem c5_corrected (st : IDSState) (now line ty : String)
    (logs : List String) (hw : ty ≠ "web") (hd : ty ≠ "db") (he : ty ≠ "email") :
    (line ≠ "" →
      analyze_log_endpoint st now line ty =
        ({ httpStatus := 400, error := some ("Unknown log type: " ++ ty),
           alert := none, detected := false }, st)) ∧
    (logs ≠ [] →
      bulk_analyze_endpoint st now logs ty =
        ({ httpStatus := 200, error := none, total_analyzed := logs.length,
           alerts_detected := 0, alerts := [] }, st)) := by
  constructor
  · intro hline
    simp [analyze_log_endpoint, hline, hw, hd, he]
  · intro hlogs
    simp only [bulk_analyze_endpoint, if_neg hlogs]
    rw [foldl_bulkStep_unknown now ty hw hd he logs ([], st)]
    rfl

/-- C5 witness: tag `"ftp"`, line `"x"`, logs `["x"]` on a fresh manager. -/
theorem c5_corrected_witness :
    analyze_log_endpoint freshState "T" "x" "ftp" =
      ({ httpStatus := 400, error := some "Unknown log type: ftp",
         alert := none, detected := false }, freshState) ∧
    bulk_analyze_endpoint freshState "T" ["x"] "ftp" =
      ({ httpStatus := 200, error := none, total_analyzed := 1,
         alerts_detected := 0, alerts := [] }, freshState) :=
  ⟨(c5_corrected freshState "T" "x" "ftp" ["x"] (by decide) (by decide)
      (by decide)).1 (by decide),
   (c5_corrected freshState "T" "x" "ftp" ["x"] (by decide) (by decide)
      (by decide)).2 (by simp)⟩

/-- **C6, counterexample.** The claim says every alert's confidence lies in
[0, 1] for any classifier artifact. But the ML path stores the unclamped
`abs(decision_function(...))` (ids_manager.py line 112): with an artifact
whose decision function returns 5, the benign line below produces an ML
alert with confidence 5 > 1. -/
theorem c6_counterexample :
    (analyze_web_log stWebDecision5 "T" benignLine).1.map (fun a => a.confidence) =
      some 5 ∧ ¬ ((5 : ℚ) ≤ 1) := by
  constructor
  · have hp : parse_log_line benignLine = some rBenign := by decide
    have hs : webSigReason rBenign = none := by decide
    simp [analyze_web_log, stWebDecision5, hp, hs, mDecision5, createAlert,
      mlConfidence]
    norm_num [round4, roundHalfEven]
  · norm_num

/-- **C6, amended.** Signature-hit alerts carry a fixed confidence within
[0, 1]: `round4(0.95) = 0.95` for web and db, `round4(0.90) = 0.90` for
email. ML-detection alerts carry the rounded, *unclamped* fallback score:
the absolute decision-function value when that probe exists (nonnegative but
possibly above 1), else the maximum entry of the class-probability row
(0.5 for an empty row), else exactly 0.5; rounding preserves nonnegativity,
but no upper bound of 1 is enforced on the decision-function path. -/
theorem c6_corrected :
    (∀ (st : IDSState) (now line : String) (a : Alert) (st2 : IDSState)
        (m : MLModel), st.web_model = some m →
      analyze_web_log st now line = (some a, st2) →
      a.confidence = round4 (95 / 100) ∨
      ∃ r, parse_log_line line = some r ∧ webSigReason r = none ∧
        a.confidence = round4 (mlConfidence m (extract_features r))) ∧
    (∀ (st : IDSState) (now line : String) (a : Alert) (st2 : IDSState)
        (m : MLModel), st.db_model = some m →
      analyze_db_log st now line = (some a, st2) →
      a.confidence = round4 (95 / 100) ∨
      (dbSigReason (parse_db_log line) = none ∧
        a.confidence =
          round4 (mlConfidence m (extract_sql_features (parse_db_log line))))) ∧
    (∀ (st : IDSState) (now line : String) (a : Alert) (st2 : IDSState)
        (m : MLModel), st.email_model = some m →
      analyze_email_log st now line = (some a, st2) →
      a.confidence = round4 (90 / 100) ∨
      ∃ r, parse_log_line line = some r ∧ emailSigReason r = none ∧
        a.confidence = round4 (mlConfidence m (extract_features r))) ∧
    (0 ≤ round4 (95 / 100) ∧ round4 (95 / 100) ≤ 1 ∧
      0 ≤ round4 (90 / 100) ∧ round4 (90 / 100) ≤ 1) ∧
    (∀ (m : MLModel) (φ : List ℚ) (df : List ℚ → ℚ),
      m.decision_function = some df →
      mlConfidence m φ = |df φ| ∧ 0 ≤ mlConfidence m φ) ∧
    (∀ (m : MLModel) (φ : List ℚ) (pp : List ℚ → List ℚ),
      m.decision_function = none → m.predict_proba = some pp →
      (pp φ = [] → mlConfidence m φ = 1 / 2) ∧
      (∀ x ∈ pp φ, x ≤ mlConfidence m φ) ∧
      (pp φ ≠ [] → mlConfidence m φ ∈ pp φ)) ∧
    (∀ (m : MLModel) (φ : List ℚ), m.decision_function = none →
      m.predict_proba = none → mlConfidence m φ = 1 / 2) ∧
    (∀ x : ℚ, 0 ≤ x → 0 ≤ round4 x) := by
  refine ⟨?_, ?_, ?_, ⟨?_, ?_, ?_, ?_⟩,
    fun m φ df h => ⟨mlConfidence_df m φ df h, ?_⟩, ?_,
    mlConfidence_default, round4_nonneg⟩
  · intro st now line a st2 m hm h
    cases hp : parse_log_line line with
    | none =>
      simp [analyze_web_log, hm, hp] at h
    | some r =>
      cases hs : webSigReason r with
      | some reason =>
        simp only [analyze_web_log, hm, hp, hs, createAlert, Prod.mk.injEq,
          Option.some.injEq] at h
        left
        rw [← h.1]
      | none =>
        simp only [analyze_web_log, hm, hp, hs] at h
        split at h
        · simp only [createAlert, Prod.mk.injEq, Option.some.injEq] at h
          right
          exact ⟨r, rfl, hs, by rw [← h.1]⟩
        · simp at h
  · intro st now line a st2 m hm h
    by_cases hq : parse_db_log line = ""
    · simp [analyze_db_log, hm, hq] at h
    · cases hs : dbSigReason (parse_db_log line) with
      | some reason =>
        simp only [analyze_db_log, hm, if_neg hq, hs, createAlert,
          Prod.mk.injEq, Option.some.injEq] at h
        left
        rw [← h.1]
      | none =>
        simp only [analyze_db_log, hm, if_neg hq, hs] at h
        split at h
        · simp only [createAlert, Prod.mk.injEq, Option.some.injEq] at h
          right
          exact ⟨rfl, by rw [← h.1]⟩
        · simp at h
  · intro st now line a st2 m hm h
    cases hp : parse_log_line line with
    | none =>
      simp [analyze_email_log, hm, hp] at h
    | some r =>
      cases hs : emailSigReason r with
      | some rs =>
        simp only [analyze_email_log, hm, hp, hs, createAlert, Prod.mk.injEq,
          Option.some.injEq] at h
        left
        rw [← h.1]
      | none =>
        simp only [analyze_email_log, hm, hp, hs] at h
        split at h
        · simp only [createAlert, Prod.mk.injEq, Option.some.injEq] at h
          right
          exact ⟨r, rfl, hs, by rw [← h.1]⟩
        · simp at h
  · rw [round4_95]; norm_num
  · rw [round4_95]; norm_num
  · rw [round4_90]; norm_num
  · rw [round4_90]; norm_num
  · rw [mlConfidence_df m φ df h]
    exact abs_nonneg _
  · intro m φ pp hdf hpp
    refine ⟨fun hempty => ?_, fun x hx => ?_, fun hne => ?_⟩
    · simp only [mlConfidence, hdf, hpp, hempty]
      norm_num
    · cases hrow : pp φ with
      | nil =>
        rw [hrow] at hx
        exact absurd hx (List.not_mem_nil x)
      | cons hh tt =>
        rw [hrow] at hx
        simp only [mlConfidence, hdf, hpp, hrow]
        exact foldl_max_le tt hh x hx
    · cases hrow : pp φ with
      | nil => exact absurd hrow hne
      | cons hh tt =>
        simp only [mlConfidence, hdf, hpp, hrow]
        exact foldl_max_mem tt hh

/-- C6 witness: the amended facts instantiated — the decision-function probe
on `mDecision5`, the class-probability probe on `mProba` (the stored score is
a member of the row and bounds every entry, i.e. it is the row maximum), the
default fallback on `mAnomaly`, and rounding nonnegativity. -/
theorem c6_corrected_witness :
    (mlConfidence mDecision5 [] = |(5 : ℚ)| ∧ 0 ≤ mlConfidence mDecision5 []) ∧
    mlConfidence mProba [] ∈ [(3 : ℚ) / 10, 6 / 10] ∧
    (∀ x ∈ [(3 : ℚ) / 10, 6 / 10], x ≤ mlConfidence mProba []) ∧
    mlConfidence mAnomaly [] = 1 / 2 ∧ (0 : ℚ) ≤ round4 0 :=
  ⟨c6_corrected.2.2.2.2.1 mDecision5 [] (fun _ => 5) rfl,
   (c6_corrected.2.2.2.2.2.1 mProba [] (fun _ => [3 / 10, 6 / 10]) rfl rfl).2.2
     (by simp),
   (c6_corrected.2.2.2.2.2.1 mProba [] (fun _ => [3 / 10, 6 / 10]) rfl rfl).2.1,
   c6_corrected.2.2.2.2.2.2.1 mAnomaly [] rfl rfl,
   c6_corrected.2.2.2.2.2.2.2 0 le_rfl⟩

/-- **C7 (confirmed).** For every db line whose extracted query contains
`DROP TABLE` or `TRUNCATE` case-insensitively (and a loaded db artifact, as
assumed by the spec's operating mode — without it C1's guard skips the
domain), analysis returns an alert with severity CRITICAL and confidence
0.95 ≥ 0.9: the bare DROP/TRUNCATE rule (ids_manager.py lines 182–184) fires
and every db signature alert is created CRITICAL with confidence 0.95. -/
theorem c7_confirmed (st : IDSState) (now line : String) (m : MLModel)
    (hm : st.db_model = some m)
    (hq : subStr "drop table" (lowerStr (parse_db_log line)) = true ∨
      subStr "truncate" (lowerStr (parse_db_log line)) = true) :
    ∃ a st2, analyze_db_log st now line = (some a, st2) ∧
      a.severity = "CRITICAL" ∧ (9 : ℚ) / 10 ≤ a.confidence := by
  have hdt : (subStr "drop" (lowerStr (parse_db_log line)) ||
      subStr "truncate" (lowerStr (parse_db_log line))) = true := by
    cases hq with
    | inl h =>
      have : subStr "drop" (lowerStr (parse_db_log line)) = true :=
        subStr_mono "drop" "drop table" _ (by
          rw [← infixOfB_iff]
          decide) h
      simp [this]
    | inr h => simp [h]
  have hlen : 1 ≤ (parse_db_log line).data.length := by
    cases hq with
    | inl h =>
      have hle := subStr_length_le _ _ h
      rw [lowerStr_data_length] at hle
      have hpat : ("drop table" : String).data.length = 10 := by decide
      omega
    | inr h =>
      have hle := subStr_length_le _ _ h
      rw [lowerStr_data_length] at hle
      have hpat : ("truncate" : String).data.length = 8 := by decide
      omega
  have hne : parse_db_log line ≠ "" := by
    intro hcontra
    rw [hcontra] at hlen
    simp at hlen
  have hsig : dbSigReason (parse_db_log line) =
      some "Dangerous operation detected (DROP/TRUNCATE)" := by
    simp only [dbSigReason]
    rw [if_pos hdt]
  have hres : analyze_db_log st now line =
      (some (createAlert st now "DB_ANOMALY" "CRITICAL"
          "Dangerous operation detected (DROP/TRUNCATE)"
          (String.mk ((parse_db_log line).data.take 200)) "Unknown" "Unknown"
          (95 / 100)).1,
        (createAlert st now "DB_ANOMALY" "CRITICAL"
          "Dangerous operation detected (DROP/TRUNCATE)"
          (String.mk ((parse_db_log line).data.take 200)) "Unknown" "Unknown"
          (95 / 100)).2) := by
    simp only [analyze_db_log, hm, if_neg hne, hsig]
  refine ⟨_, _, hres, rfl, ?_⟩
  show (9 : ℚ) / 10 ≤ round4 (95 / 100)
  rw [round4_95]
  norm_num

/-- C7 witness: the MySQL general-log line carrying `DROP TABLE users`, on a
manager with a loaded db artifact. -/
theorem c7_confirmed_witness :
    ∃ a st2, analyze_db_log stDbBenign "T" dropLine = (some a, st2) ∧
      a.severity = "CRITICAL" ∧ (9 : ℚ) / 10 ≤ a.confidence :=
  c7_confirmed stDbBenign "T" dropLine mBenign rfl (Or.inl (by decide))

/-- **C8 (confirmed).** If the domain artifact exposes neither a
decision-function-style score nor a class-probability vector, the fallback
chain yields exactly 0.5, and an ML-only detection (no signature fired,
prediction −1) carries confidence exactly 0.5 — on the web path and on the
db path. -/
theorem c8_confirmed :
    (∀ (m : MLModel) (φ : List ℚ), m.decision_function = none →
      m.predict_proba = none → mlConfidence m φ = 1 / 2) ∧
    (∀ (st : IDSState) (now line : String) (m : MLModel) (r : LogRecord),
      st.web_model = some m → m.decision_function = none →
      m.predict_proba = none → parse_log_line line = some r →
      webSigReason r = none → m.predict (extract_features r) = -1 →
      ∃ a st2, analyze_web_log st now line = (some a, st2) ∧
        a.confidence = 1 / 2) ∧
    (∀ (st : IDSState) (now line : String) (m : MLModel),
      st.db_model = some m → m.decision_function = none →
      m.predict_proba = none → parse_db_log line ≠ "" →
      dbSigReason (parse_db_log line) = none →
      m.predict (extract_sql_features (parse_db_log line)) = -1 →
      ∃ a st2, analyze_db_log st now line = (some a, st2) ∧
        a.confidence = 1 / 2) := by
  refine ⟨mlConfidence_default, ?_, ?_⟩
  · intro st now line m r hm hdf hpp hp hs hpred
    have hres : analyze_web_log st now line =
        (some (createAlert st now "WEB_ANOMALY" "HIGH"
            "Web Layer Attack (ML Detection)" (r.method ++ " " ++ r.url) r.ip
            r.user_agent (mlConfidence m (extract_features r))).1,
          (createAlert st now "WEB_ANOMALY" "HIGH"
            "Web Layer Attack (ML Detection)" (r.method ++ " " ++ r.url) r.ip
            r.user_agent (mlConfidence m (extract_features r))).2) := by
      simp only [analyze_web_log, hm, hp, hs, hpred, if_pos]
    refine ⟨_, _, hres, ?_⟩
    show round4 (mlConfidence m (extract_features r)) = 1 / 2
    rw [mlConfidence_default m _ hdf hpp, round4_half]
  · intro st now line m hm hdf hpp hne hs hpred
    have hres : analyze_db_log st now line =
        (some (createAlert st now "DB_ANOMALY" "CRITICAL"
            "SQL Injection/Database Attack (ML Detection)"
            (String.mk ((parse_db_log line).data.take 200)) "Unknown" "Unknown"
            (mlConfidence m (extract_sql_features (parse_db_log line)))).1,
          (createAlert st now "DB_ANOMALY" "CRITICAL"
            "SQL Injection/Database Attack (ML Detection)"
            (String.mk ((parse_db_log line).data.take 200)) "Unknown" "Unknown"
            (mlConfidence m (extract_sql_features (parse_db_log line)))).2) := by
      simp only [analyze_db_log, hm, if_neg hne, hs, hpred, if_pos]
    refine ⟨_, _, hres, ?_⟩
    show round4 (mlConfidence m (extract_sql_features (parse_db_log line))) = 1 / 2
    rw [mlConfidence_default m _ hdf hpp, round4_half]

/-- C8 witness: `mAnomaly` (no probes, predicts anomaly) on the benign web
line and on the benign SQL query. -/
theorem c8_confirmed_witness :
    (∃ a st2, analyze_web_log stWebAnomaly "T" benignLine = (some a, st2) ∧
      a.confidence = 1 / 2) ∧
    (∃ a st2,
      analyze_db_log { freshState with db_model := some mAnomaly } "T"
        benignQueryLine = (some a, st2) ∧ a.confidence = 1 / 2) :=
  ⟨c8_confirmed.2.1 stWebAnomaly "T" benignLine mAnomaly rBenign rfl rfl rfl
    (by decide) (by decide) rfl,
   c8_confirmed.2.2 { freshState with db_model := some mAnomaly } "T"
    benignQueryLine mAnomaly rfl rfl rfl (by decide) (by decide) rfl⟩

/-- **C10 (confirmed).** `get_alerts` with limit 0 returns the whole filtered
list (`alerts[-0:]` is the full sequence); with a positive limit it returns
the last (most recent) `limit` filtered alerts, hence at most `limit` of
them; and the HTTP endpoint passes its caller-supplied `limit` query
parameter straight through to the store query. -/
theorem c10_confirmed :
    (∀ (st : IDSState) (t s : Option String),
      get_alerts st t s 0 = filterAlerts st.alerts t s) ∧
    (∀ (st : IDSState) (t s : Option String) (n : Int), 0 < n →
      get_alerts st t s n = (filterAlerts st.alerts t s).drop
        ((filterAlerts st.alerts t s).length - n.toNat) ∧
      (get_alerts st t s n).length ≤ n.toNat) ∧
    (∀ (st : IDSState) (t s : Option String) (n : Int),
      (get_alerts_endpoint st t s (some n)).alerts = get_alerts st t s n) := by
  refine ⟨fun st t s => pySliceLast_zero _, fun st t s n hn => ?_, fun _ _ _ _ => rfl⟩
  have h := pySliceLast_pos (filterAlerts st.alerts t s) n hn
  refine ⟨h, ?_⟩
  show (pySliceLast (filterAlerts st.alerts t s) n).length ≤ n.toNat
  rw [h, List.length_drop]
  omega

/-- C10 witness: a store holding one alert, queried with limit 3. -/
theorem c10_confirmed_witness :
    get_alerts freshState none none 3 = (filterAlerts freshState.alerts none none).drop
      ((filterAlerts freshState.alerts none none).length - (3 : Int).toNat) ∧
    (get_alerts freshState none none 3).length ≤ (3 : Int).toNat :=
  c10_confirmed.2.1 freshState none none 3 (by norm_num)

end IDS
